import Mathlib

/-!
Verification of the gunpowder pipeline slice: the `RandomLocation` sampler
(`gunpowder/nodes/random_location.py`) and the `Normalize` filter
(`gunpowder/nodes/normalize.py`), over a shallow embedding of the code.

The `Coordinate`/`Roi` algebra and the provider-spec helpers live outside the
given source files; they are modelled from the design document (its sections 3,
4.2 and 4.4), as marked on each such definition.  `random_location.py` hardcodes
three-dimensional literals (`(0,0,0)`, `Coordinate((2,2,2))`), so coordinates
are embedded as triples of integers.
-/

set_option maxHeartbeats 1000000

/-- Modelled from the spec: an ordered tuple of signed integers, one per
spatial dimension, with elementwise arithmetic and ordering comparisons.
The sampler under verification fixes the dimensionality to 3. -/
structure Coordinate where
  x : Int
  y : Int
  z : Int
deriving DecidableEq, Repr

/-- Elementwise addition. -/
def Coordinate.add (a b : Coordinate) : Coordinate :=
  ⟨a.x + b.x, a.y + b.y, a.z + b.z⟩

instance : Add Coordinate := ⟨Coordinate.add⟩

/-- Elementwise subtraction. -/
def Coordinate.sub (a b : Coordinate) : Coordinate :=
  ⟨a.x - b.x, a.y - b.y, a.z - b.z⟩

instance : Sub Coordinate := ⟨Coordinate.sub⟩

/-- Elementwise negation. -/
def Coordinate.neg (a : Coordinate) : Coordinate := ⟨-a.x, -a.y, -a.z⟩

instance : Neg Coordinate := ⟨Coordinate.neg⟩

/-- Elementwise multiplication (Python `Coordinate.__mul__`). -/
def Coordinate.mul (a b : Coordinate) : Coordinate :=
  ⟨a.x * b.x, a.y * b.y, a.z * b.z⟩

instance : Mul Coordinate := ⟨Coordinate.mul⟩

/-- Modelled from the spec: elementwise integer division.  Python 2 `/` on
ints rounds toward negative infinity, hence `Int.fdiv`. -/
def Coordinate.fdivc (a b : Coordinate) : Coordinate :=
  ⟨Int.fdiv a.x b.x, Int.fdiv a.y b.y, Int.fdiv a.z b.z⟩

/-- Elementwise least common multiple (`ProviderSpec.get_lcm_voxel_size`
combines voxel sizes with this). -/
def Coordinate.lcmc (a b : Coordinate) : Coordinate :=
  ⟨(Int.lcm a.x b.x : Int), (Int.lcm a.y b.y : Int), (Int.lcm a.z b.z : Int)⟩

/-- Elementwise minimum. -/
def Coordinate.minc (a b : Coordinate) : Coordinate :=
  ⟨min a.x b.x, min a.y b.y, min a.z b.z⟩

/-- Elementwise maximum. -/
def Coordinate.maxc (a b : Coordinate) : Coordinate :=
  ⟨max a.x b.x, max a.y b.y, max a.z b.z⟩

/-- Elementwise non-strict comparison, as a boolean. -/
def Coordinate.leB (a b : Coordinate) : Bool :=
  decide (a.x ≤ b.x) && decide (a.y ≤ b.y) && decide (a.z ≤ b.z)

/-- Elementwise strict comparison, as a boolean. -/
def Coordinate.ltB (a b : Coordinate) : Bool :=
  decide (a.x < b.x) && decide (a.y < b.y) && decide (a.z < b.z)

/-- `d` divides `s` in every component: `s` is an exact integer multiple
of the granularity `d`. -/
def Coordinate.isMultipleOf (d s : Coordinate) : Prop :=
  d.x ∣ s.x ∧ d.y ∣ s.y ∧ d.z ∣ s.z

instance (d s : Coordinate) : Decidable (d.isMultipleOf s) := by
  unfold Coordinate.isMultipleOf; infer_instance

theorem Coordinate.leB_iff (a b : Coordinate) :
    a.leB b = true ↔ a.x ≤ b.x ∧ a.y ≤ b.y ∧ a.z ≤ b.z := by
  simp [Coordinate.leB, and_assoc]

theorem Coordinate.ltB_iff (a b : Coordinate) :
    a.ltB b = true ↔ a.x < b.x ∧ a.y < b.y ∧ a.z < b.z := by
  simp [Coordinate.ltB, and_assoc]

theorem Coordinate.add_def (a b : Coordinate) :
    a + b = ⟨a.x + b.x, a.y + b.y, a.z + b.z⟩ := rfl

theorem Coordinate.sub_def (a b : Coordinate) :
    a - b = ⟨a.x - b.x, a.y - b.y, a.z - b.z⟩ := rfl

theorem Coordinate.neg_def (a : Coordinate) : -a = ⟨-a.x, -a.y, -a.z⟩ := rfl

theorem Coordinate.mul_def (a b : Coordinate) :
    a * b = ⟨a.x * b.x, a.y * b.y, a.z * b.z⟩ := rfl

/-- Modelled from the spec: an axis-aligned region `(offset, shape)` with
`begin = offset` and `end = offset + shape`. -/
structure Roi where
  offset : Coordinate
  shape : Coordinate
deriving DecidableEq, Repr

/-- `Roi.get_begin()`. -/
def Roi.getBegin (r : Roi) : Coordinate := r.offset

/-- `Roi.get_end()`. -/
def Roi.getEnd (r : Roi) : Coordinate := r.offset + r.shape

/-- Modelled from the spec: `shift(d)` translates the region. -/
def Roi.shift (r : Roi) (d : Coordinate) : Roi := ⟨r.offset + d, r.shape⟩

/-- Modelled from the spec: `grow(neg, pos)` expands (or, negative, shrinks)
the lower face by `neg` and the upper face by `pos`. -/
def Roi.grow (r : Roi) (amountNeg amountPos : Coordinate) : Roi :=
  ⟨r.offset - amountNeg, r.shape + amountNeg + amountPos⟩

/-- Modelled from the spec: `intersect` keeps the overlap; with no overlap the
result has a zero-or-negative shape that call sites treat as infeasible. -/
def Roi.intersect (a b : Roi) : Roi :=
  let b0 := Coordinate.maxc a.getBegin b.getBegin
  let e0 := Coordinate.minc a.getEnd b.getEnd
  ⟨b0, e0 - b0⟩

/-- Modelled from the spec: the bounding union of two regions (used by
`get_total_roi` to form the provider's bounding box). -/
def Roi.unionR (a b : Roi) : Roi :=
  let b0 := Coordinate.minc a.getBegin b.getBegin
  let e0 := Coordinate.maxc a.getEnd b.getEnd
  ⟨b0, e0 - b0⟩

/-- Modelled from the spec: `size()` is the product of the shape components. -/
def Roi.size (r : Roi) : Int := r.shape.x * r.shape.y * r.shape.z

/-- Modelled from the spec: point containment, `begin ≤ p < end` elementwise. -/
def Roi.containsPointB (r : Roi) (p : Coordinate) : Bool :=
  r.getBegin.leB p && p.ltB r.getEnd

/-- Modelled from the spec: region containment, `begin ≤ other.begin` and
`other.end ≤ end` elementwise. -/
def Roi.containsRoiB (r o : Roi) : Bool :=
  r.getBegin.leB o.getBegin && o.getEnd.leB r.getEnd

/-- Modelled from the spec: `Roi` division by a granularity divides offset and
shape elementwise (floor division, the Python 2 integer `/`). -/
def Roi.divR (r : Roi) (d : Coordinate) : Roi :=
  ⟨r.offset.fdivc d, r.shape.fdivc d⟩

theorem Roi.containsPointB_iff (r : Roi) (p : Coordinate) :
    r.containsPointB p = true ↔
      (r.offset.x ≤ p.x ∧ r.offset.y ≤ p.y ∧ r.offset.z ≤ p.z) ∧
      (p.x < r.offset.x + r.shape.x ∧ p.y < r.offset.y + r.shape.y ∧
        p.z < r.offset.z + r.shape.z) := by
  simp [Roi.containsPointB, Roi.getBegin, Roi.getEnd, Coordinate.leB_iff,
    Coordinate.ltB_iff, Coordinate.add_def]

theorem Roi.containsRoiB_iff (r o : Roi) :
    r.containsRoiB o = true ↔
      (r.offset.x ≤ o.offset.x ∧ r.offset.y ≤ o.offset.y ∧
        r.offset.z ≤ o.offset.z) ∧
      (o.offset.x + o.shape.x ≤ r.offset.x + r.shape.x ∧
        o.offset.y + o.shape.y ≤ r.offset.y + r.shape.y ∧
        o.offset.z + o.shape.z ≤ r.offset.z + r.shape.z) := by
  simp [Roi.containsRoiB, Roi.getBegin, Roi.getEnd, Coordinate.leB_iff,
    Coordinate.add_def]

/-- Membership in an intersection is membership in both operands. -/
theorem Roi.containsPointB_intersect (a b : Roi) (p : Coordinate) :
    (a.intersect b).containsPointB p = (a.containsPointB p && b.containsPointB p) := by
  rw [Bool.eq_iff_iff]
  simp only [Bool.and_eq_true, Roi.containsPointB_iff]
  simp only [Roi.intersect, Roi.getBegin, Roi.getEnd, Coordinate.maxc,
    Coordinate.minc, Coordinate.add_def, Coordinate.sub_def]
  omega

/-- An upstream array declaration: its region (possibly unbounded) and voxel
size (`ArraySpec`, the fields the sampler reads). -/
structure ArrayInfo where
  roi : Option Roi
  voxelSize : Coordinate
deriving DecidableEq, Repr

/-- A provider spec: per-key array declarations and per-key point-set regions
(`ProviderSpec` with `array_specs` and `points_specs`). -/
structure ProviderSpec where
  arrays : List (Nat × ArrayInfo)
  points : List (Nat × Option Roi)
deriving DecidableEq, Repr

/-- A batch request: per-key requested regions for arrays and point sets
(`BatchRequest` with `array_specs` and `points_specs`). -/
structure Request where
  arrays : List (Nat × Roi)
  points : List (Nat × Roi)
deriving DecidableEq, Repr

/-- `RandomLocation.__init__`: `min_masked`, `mask`, `ensure_nonempty`. -/
structure RLCfg where
  minMasked : ℚ
  mask : Option Nat
  ensureNonempty : Option Nat
deriving DecidableEq, Repr

/-- What `setup()` keeps for the mask check: the binarized mask
(`mask_data > 0`, the summed-area table's contents), and the mask's own spec
(`self.mask_spec`): its region and voxel size. -/
structure MaskEnv where
  maskBin : Coordinate → Bool
  maskSpecRoi : Option Roi
  maskVoxelSize : Coordinate

/-- The failures `setup()` can raise. -/
inductive SetupError where
  /-- `RuntimeError`: no bounding box upstream (line 58). -/
  | noBoundingBox : SetupError
  /-- the `assert self.mask in self.upstream_spec` on line 62. -/
  | maskMissing : SetupError
deriving DecidableEq, Repr

/-- The failures `prepare()` can raise. -/
inductive PrepError where
  /-- the `raise Exception("Requested ..., but upstream does not provide it.")`
  on line 112. -/
  | missingKey (k : Nat) : PrepError
  /-- a Python `KeyError` from a dictionary lookup (for example
  `get_lcm_voxel_size` over a key the spec lacks, or
  `request.array_specs[self.mask]` when the mask was not requested). -/
  | keyError : PrepError
  /-- shifting a `None` region (Python `AttributeError`). -/
  | noneRoi : PrepError
  /-- line 153 evaluates `PointsSpec(roi=...)`, but `random_location.py` never
  imports `PointsSpec`, so Python raises `NameError` whenever that line runs. -/
  | nameError : PrepError
  /-- the `assert shift_roi is not None and shift_roi.size() > 0` on line 124. -/
  | unsatisfiable : PrepError
  /-- a failed `assert` while shifting or validating regions
  (lines 174 and 224). -/
  | assertionFailed : PrepError
deriving DecidableEq, Repr

/-- `identifier in self.upstream_spec` / `self.upstream_spec[identifier].roi`:
the provided region of a key, arrays first, then point sets; `none` when the
key is absent. -/
def lookupProvided (s : ProviderSpec) (k : Nat) : Option (Option Roi) :=
  match s.arrays.lookup k with
  | some info => some info.roi
  | none => s.points.lookup k

/-- All the regions a provider declares, in declaration order. -/
def providedRois (s : ProviderSpec) : List Roi :=
  (s.arrays.map (fun e => e.2.roi) ++ s.points.map (fun e => e.2)).filterMap id

/-- Modelled from the spec: `ProviderSpec.get_total_roi()`, the bounding box of
everything provided; `None` when no key has a bounded region. -/
def getTotalRoi (s : ProviderSpec) : Option Roi :=
  match providedRois s with
  | [] => none
  | r :: rest => some (rest.foldl Roi.unionR r)

/-- Lines 84-88 of `setup()`: clear the bounding boxes of all provided arrays
and points (`spec.roi = None` for every identifier of the node's spec, which
starts as a copy of the upstream spec). -/
def clearRois (s : ProviderSpec) : ProviderSpec :=
  { arrays := s.arrays.map (fun e => (e.1, { e.2 with roi := none })),
    points := s.points.map (fun e => (e.1, none)) }

/-- What `setup()` leaves on the node: `self.upstream_roi`, the advertised
spec with cleared regions, and the mask environment when one was built. -/
structure SetupResult where
  upstreamRoi : Roi
  spec : ProviderSpec
  maskEnv : Option MaskEnv

/-- Line 63 (`self.upstream_spec.array_specs[self.mask]`) after the line-62
membership assert, and lines 65-82: fetch the whole mask, binarize it
(`mask_data > 0`) and keep the integral-table environment. -/
def setupMaskLookup (upstream : ProviderSpec) (maskData : Coordinate → Int)
    (uroi : Roi) : Option ArrayInfo → Except SetupError SetupResult
  | none => .error .maskMissing
  | some info =>
    .ok { upstreamRoi := uroi,
          spec := clearRois upstream,
          maskEnv := some { maskBin := fun p => decide (0 < maskData p),
                            maskSpecRoi := info.roi,
                            maskVoxelSize := info.voxelSize } }

/-- Lines 60-82 dispatched on the configured mask key. -/
def setupMask (upstream : ProviderSpec) (maskData : Coordinate → Int)
    (uroi : Roi) : Option Nat → Except SetupError SetupResult
  | none => .error .maskMissing
  | some mk => setupMaskLookup upstream maskData uroi (upstream.arrays.lookup mk)

/-- Lines 52-88 after `get_total_roi()` resolved: no bounding box is the
fatal `RuntimeError` of line 58; otherwise build the mask environment when
one is configured and clear the advertised regions. -/
def setupGo (cfg : RLCfg) (upstream : ProviderSpec)
    (maskData : Coordinate → Int) : Option Roi → Except SetupError SetupResult
  | none => .error .noBoundingBox
  | some uroi =>
    if cfg.mask.isSome ∧ 0 < cfg.minMasked then
      setupMask upstream maskData uroi cfg.mask
    else
      .ok { upstreamRoi := uroi, spec := clearRois upstream, maskEnv := none }

/-- `RandomLocation.setup()` (lines 52-88).  `maskData` stands for the data of
the complete-mask batch fetched from upstream on line 68. -/
def setup (cfg : RLCfg) (upstream : ProviderSpec) (maskData : Coordinate → Int) :
    Except SetupError SetupResult :=
  setupGo cfg upstream maskData (getTotalRoi upstream)

/-- Modelled from the spec: the folding step of
`ProviderSpec.get_lcm_voxel_size` over the remaining keys. -/
def lcmVoxelFold (s : ProviderSpec) : List Nat → Coordinate → Except PrepError Coordinate
  | [], acc => .ok acc
  | k :: rest, acc =>
    match s.arrays.lookup k with
    | none => .error .keyError
    | some info => lcmVoxelFold s rest (acc.lcmc info.voxelSize)

/-- Wrapping the fold's outcome as `get_lcm_voxel_size`'s optional result. -/
def getLcmTail : Except PrepError Coordinate → Except PrepError (Option Coordinate)
  | .error e => .error e
  | .ok v => .ok (some v)

/-- Modelled from the spec: `self.spec.get_lcm_voxel_size(keys)` — the least
common multiple of the requested arrays' voxel sizes; `prepare` passes `None`
when the request names no arrays (lines 97-104). -/
def getLcmVoxelSize (s : ProviderSpec) (keys : List Nat) :
    Except PrepError (Option Coordinate) :=
  match keys with
  | [] => .ok none
  | k :: rest =>
    match s.arrays.lookup k with
    | none => .error .keyError
    | some info => getLcmTail (lcmVoxelFold s rest info.voxelSize)

/-- Line 115: the per-key feasible-shift region,
`provided_roi.shift(-request_roi.get_begin()).grow((0,0,0), -request_roi.get_shape())`. -/
def typeShiftRoi (provided requestRoi : Roi) : Roi :=
  (provided.shift (-requestRoi.getBegin)).grow ⟨0, 0, 0⟩ (-requestRoi.shape)

/-- `request.items()`: all requested keys with their regions, arrays first. -/
def requestItems (request : Request) : List (Nat × Roi) :=
  request.arrays ++ request.points

/-- The loop body of lines 107-120, folding the per-key regions with
`intersect`; `acc = none` is the initial `shift_roi = None`. -/
def shiftRoiFold (upstream : ProviderSpec) :
    List (Nat × Roi) → Option Roi → Except PrepError (Option Roi)
  | [], acc => .ok acc
  | (k, rr) :: rest, acc =>
    match lookupProvided upstream k with
    | none => .error (.missingKey k)
    | some none => .error .noneRoi
    | some (some pr) =>
      let t := typeShiftRoi pr rr
      shiftRoiFold upstream rest
        (some (match acc with | none => t | some a => a.intersect t))

/-- Lines 107-120: the feasible-shift region of a request, the intersection of
the per-key regions over all requested keys. -/
def computeShiftRoi (upstream : ProviderSpec) (request : Request) :
    Except PrepError (Option Roi) :=
  shiftRoiFold upstream (requestItems request) none

/-- Line 124: `assert shift_roi is not None and shift_roi.size() > 0`. -/
def checkSatisfiable : Option Roi → Except PrepError Roi
  | none => .error .unsatisfiable
  | some sr => if 0 < sr.size then .ok sr else .error .unsatisfiable

/-- Lines 136-140: the sampled lattice point, multiplied back by the voxel
granularity when one applies. -/
def applyLcm (lcmVoxelSize : Option Coordinate) (q : Coordinate) : Coordinate :=
  match lcmVoxelSize with
  | some l => q * l
  | none => q

/-- The values `randint(int(begin), int(end-1))` can return for each component
of the outer sampling loop (line 137): `begin ≤ q ≤ end - 1`. -/
def inRandintRange (r : Roi) (q : Coordinate) : Bool :=
  r.getBegin.leB q && q.leB (r.getEnd - ⟨1, 1, 1⟩)

/-- The integer points of the box `[b, e)`, for counting mask voxels. -/
def boxPoints (b e : Coordinate) : List Coordinate :=
  ((List.range (e.x - b.x).toNat).map (fun i => b.x + i)).flatMap fun px =>
    ((List.range (e.y - b.y).toNat).map (fun i => b.y + i)).flatMap fun py =>
      ((List.range (e.z - b.z).toNat).map (fun i => b.z + i)).map fun pz =>
        ⟨px, py, pz⟩

/-- The number of points of the box `[b, e)` where `f` holds. -/
def countIn (f : Coordinate → Bool) (b e : Coordinate) : Int :=
  ((boxPoints b e).filter f).length

/-- Modelled from the spec: the summed-area (integral) table query
`integrate(table, [start], [stop])` of the external library — the sum of the
binarized mask over the inclusive index window `[start, stop]`. -/
def integrateQuery (f : Coordinate → Bool) (start stopInc : Coordinate) : Int :=
  countIn f start (stopInc + ⟨1, 1, 1⟩)

/-- Lines 190-196: the randomly chosen mask region in array coordinates,
`(request_mask_roi.shift(random_shift)) / voxel_size`, then shifted by
`-(mask_spec.roi.get_offset() / voxel_size)`. -/
def requestMaskRoiInArray (maskSpecRoi : Roi) (maskVoxelSize : Coordinate)
    (requestMaskRoi : Roi) (randomShift : Coordinate) : Roi :=
  ((requestMaskRoi.shift randomShift).divR maskVoxelSize).shift
    (-(maskSpecRoi.offset.fdivc maskVoxelSize))

/-- Lines 198-205: the masked-in fraction of the shifted mask region —
the integral-table count over the region divided by the region's size. -/
def maskRatio (maskBin : Coordinate → Bool) (roiInArray : Roi) : ℚ :=
  (integrateQuery maskBin roiInArray.getBegin (roiInArray.getEnd - ⟨1, 1, 1⟩) : ℚ) /
    (roiInArray.size : ℚ)

/-- The mask-fraction comparison of lines 199-215, after the requested mask
region and the mask's own spec region have been looked up:
`mask_ratio >= self.min_masked`. -/
def maskCompare (minMasked : ℚ) (env : MaskEnv) :
    Option Roi → Option Roi → Coordinate → Except PrepError Bool
  | some mroi, some sroi, randomShift =>
    .ok (decide (minMasked ≤ maskRatio env.maskBin
      (requestMaskRoiInArray sroi env.maskVoxelSize mroi randomShift)))
  | _, _, _ => .error .keyError

/-- Line 190 looks up the requested mask region (`request.array_specs[self.mask]`,
a `KeyError` when absent); line 196 reads the mask spec's own region. -/
def maskCheck (minMasked : ℚ) : Option Nat → Option MaskEnv → Request →
    Coordinate → Except PrepError Bool
  | some mk, some env, request, randomShift =>
    maskCompare minMasked env (request.arrays.lookup mk) env.maskSpecRoi randomShift
  | _, _, _, _ => .error .keyError

/-- Lines 188-215: the mask acceptance check for a candidate shift.  `true`
when no mask constraint is configured (`if self.mask and self.min_masked > 0`);
otherwise the masked-in fraction of the shifted requested mask region must
reach `min_masked`. -/
def maskGood (cfg : RLCfg) (maskEnv : Option MaskEnv) (request : Request)
    (randomShift : Coordinate) : Except PrepError Bool :=
  if cfg.mask.isSome ∧ 0 < cfg.minMasked then
    maskCheck cfg.minMasked cfg.mask maskEnv request randomShift
  else
    .ok true

/-- The outcome the sampling loop records on success: the final `random_shift`
and, on the `ensure_nonempty` path, the chosen point (id and location). -/
structure Accepted where
  shift : Coordinate
  chosenPoint : Option (Nat × Coordinate)
deriving DecidableEq, Repr

/-- The randomness one iteration of the outer loop could consume: the outer
`randint` triple `q` (line 137), the `np.random.choice` pick of line 158 and
the inner-loop `randint` triples of line 169.  The latter two are included
for completeness; the `NameError` at line 153 means the source never reaches
the draws of lines 158-170. -/
structure StepRng where
  q : Coordinate
  choice : Nat
  trials : Nat → Coordinate

/-- Lines 145-186: the `ensure_nonempty` phase of one loop iteration,
dispatched on the configured key.  Line 147 reads
`request.points_spec[self.ensure_nonempty].roi` — a `KeyError` when the
request has no such key; line 152 builds the secondary request; then line 153
evaluates `PointsSpec(roi=focused_points_roi.shift(random_shift))`, a name
this module never imports, so Python raises `NameError` there.  The point
prefetch of line 154, `np.random.choice`, the `local_shift_roi` of
lines 161-162 and the bounded local-shift search of lines 164-181 are
unreachable. -/
def pointsPhaseGo (request : Request) (initial : Coordinate) :
    Option Nat →
    Except PrepError (Coordinate × Bool × Option (Nat × Coordinate))
  | none => .ok (initial, true, none)
  | some pk =>
    match request.points.lookup pk with
    | none => .error .keyError
    | some _ => .error .nameError

/-- Lines 144-186: the `ensure_nonempty` phase.  `_pointsIn` stands for the
deterministic upstream point provider line 154 would query, and `_rng` for
the point choice and inner-loop draws of lines 158-170; the `NameError` at
line 153 means neither is ever consumed. -/
def pointsPhase (cfg : RLCfg) (_pointsIn : Roi → List (Nat × Coordinate))
    (request : Request) (_shiftRoi : Roi) (initial : Coordinate)
    (_rng : StepRng) :
    Except PrepError (Coordinate × Bool × Option (Nat × Coordinate)) :=
  pointsPhaseGo request initial cfg.ensureNonempty

/-- The loop condition of line 134: given the points flag and the mask
check's verdict, exit the loop with the accepted location or resample. -/
def stepDecide (goodPoints : Bool) (chosen : Option (Nat × Coordinate))
    (shift : Coordinate) :
    Except PrepError Bool → Except PrepError (Option Accepted)
  | .error e => .error e
  | .ok goodMask =>
    if goodPoints && goodMask then .ok (some ⟨shift, chosen⟩) else .ok none

/-- The candidate shift of this iteration flows into the mask check of
lines 188-215; the iteration exits the loop when both flags hold. -/
def stepFinish (cfg : RLCfg) (maskEnv : Option MaskEnv) (request : Request) :
    Except PrepError (Coordinate × Bool × Option (Nat × Coordinate)) →
    Except PrepError (Option Accepted)
  | .error e => .error e
  | .ok (shift, goodPoints, chosen) =>
    stepDecide goodPoints chosen shift (maskGood cfg maskEnv request shift)

/-- Lines 133-215: one iteration of the sampling loop.  `ok (some a)` means
both constraints held and the loop exits with `a`; `ok none` means a
constraint failed and the loop resamples.  Line 137 draws `rng.q` from
`_lcmShiftRoi` by `randint`; the draw itself is the supplied `rng.q`, with
`inRandintRange _lcmShiftRoi rng.q` saying it is one `randint` could make. -/
def prepareStep (cfg : RLCfg) (pointsIn : Roi → List (Nat × Coordinate))
    (maskEnv : Option MaskEnv) (request : Request) (shiftRoi : Roi)
    (_lcmShiftRoi : Roi) (lcmVoxelSize : Option Coordinate) (rng : StepRng) :
    Except PrepError (Option Accepted) :=
  stepFinish cfg maskEnv request
    (pointsPhase cfg pointsIn request shiftRoi (applyLcm lcmVoxelSize rng.q) rng)

/-- The `while not good_location_found_for_mask or not
good_location_found_for_points` loop (line 134), one `StepRng` per iteration;
`fuel` cuts off the unbounded source loop (`ok none` when it is spent). -/
def prepareLoop (cfg : RLCfg) (pointsIn : Roi → List (Nat × Coordinate))
    (maskEnv : Option MaskEnv) (request : Request) (shiftRoi : Roi)
    (lcmShiftRoi : Roi) (lcmVoxelSize : Option Coordinate)
    (rngs : Nat → StepRng) : Nat → Except PrepError (Option Accepted)
  | 0 => .ok none
  | fuel + 1 =>
    match prepareStep cfg pointsIn maskEnv request shiftRoi lcmShiftRoi
        lcmVoxelSize (rngs 0) with
    | .error e => .error e
    | .ok (some a) => .ok (some a)
    | .ok none =>
      prepareLoop cfg pointsIn maskEnv request shiftRoi lcmShiftRoi
        lcmVoxelSize (fun i => rngs (i + 1)) fuel

/-- Lines 219-224 for one spec collection: shift every requested region by the
chosen shift, asserting `self.upstream_roi.contains(roi)` for each. -/
def shiftSpecList (upstreamRoi : Roi) (shift : Coordinate) :
    List (Nat × Roi) → Except PrepError (List (Nat × Roi))
  | [] => .ok []
  | (k, r) :: rest =>
    let nr := r.shift shift
    if upstreamRoi.containsRoiB nr then
      match shiftSpecList upstreamRoi shift rest with
      | .error e => .error e
      | .ok rest2 => .ok ((k, nr) :: rest2)
    else .error .assertionFailed

/-- Lines 217-224: rewrite the request's regions by the chosen shift. -/
def shiftRequestRois (request : Request) (shift : Coordinate) (upstreamRoi : Roi) :
    Except PrepError Request :=
  match shiftSpecList upstreamRoi shift request.arrays with
  | .error e => .error e
  | .ok arrays2 =>
    match shiftSpecList upstreamRoi shift request.points with
    | .error e => .error e
    | .ok points2 => .ok ⟨arrays2, points2⟩

/-- Lines 217-224 after the loop accepted a location: rewrite the request's
regions by the accepted shift (with the per-key asserts) and return. -/
def prepareFinal (a : Accepted) :
    Except PrepError Request → Except PrepError (Option (Request × Accepted))
  | .error e => .error e
  | .ok request2 => .ok (some (request2, a))

/-- The sampling loop's verdict: an error propagates, a cut-off fuelled loop
yields nothing, an accepted location flows into the final region rewrite. -/
def prepareSampled (request : Request) (upstreamRoi : Roi) :
    Except PrepError (Option Accepted) →
    Except PrepError (Option (Request × Accepted))
  | .error e => .error e
  | .ok none => .ok none
  | .ok (some a) =>
    prepareFinal a (shiftRequestRois request a.shift upstreamRoi)

/-- Lines 128-131: when a voxel granularity was resolved, divide the
feasible-shift region by it; otherwise sample in the region itself. -/
def quantizeShiftRoi (lcmVoxelSize : Option Coordinate) (shiftRoi : Roi) : Roi :=
  match lcmVoxelSize with
  | some l => shiftRoi.divR l
  | none => shiftRoi

/-- Lines 128-224 after the satisfiability assert: quantize the feasible
region by the voxel granularity (lines 128-131) and run the sampling loop. -/
def prepareChecked (cfg : RLCfg) (pointsIn : Roi → List (Nat × Coordinate))
    (maskEnv : Option MaskEnv) (upstreamRoi : Roi) (request : Request)
    (rngs : Nat → StepRng) (fuel : Nat) (lcmVoxelSize : Option Coordinate) :
    Except PrepError Roi → Except PrepError (Option (Request × Accepted))
  | .error e => .error e
  | .ok shiftRoi =>
    prepareSampled request upstreamRoi
      (prepareLoop cfg pointsIn maskEnv request shiftRoi
        (quantizeShiftRoi lcmVoxelSize shiftRoi) lcmVoxelSize rngs fuel)

/-- Lines 107-224 after the voxel granularity resolved: build the
feasible-shift region and check satisfiability. -/
def prepareWithShiftRoi (cfg : RLCfg) (pointsIn : Roi → List (Nat × Coordinate))
    (maskEnv : Option MaskEnv) (upstreamRoi : Roi) (request : Request)
    (rngs : Nat → StepRng) (fuel : Nat) (lcmVoxelSize : Option Coordinate) :
    Except PrepError (Option Roi) → Except PrepError (Option (Request × Accepted))
  | .error e => .error e
  | .ok sr =>
    prepareChecked cfg pointsIn maskEnv upstreamRoi request rngs fuel
      lcmVoxelSize (checkSatisfiable sr)

/-- Lines 97-104 resolved first: an error from `get_lcm_voxel_size`
propagates before anything else of `prepare` runs. -/
def prepareWithLcm (cfg : RLCfg) (pointsIn : Roi → List (Nat × Coordinate))
    (maskEnv : Option MaskEnv) (upstream : ProviderSpec) (upstreamRoi : Roi)
    (request : Request) (rngs : Nat → StepRng) (fuel : Nat) :
    Except PrepError (Option Coordinate) →
    Except PrepError (Option (Request × Accepted))
  | .error e => .error e
  | .ok lcmVoxelSize =>
    prepareWithShiftRoi cfg pointsIn maskEnv upstreamRoi request rngs fuel
      lcmVoxelSize (computeShiftRoi upstream request)

/-- `RandomLocation.prepare` (lines 90-224): voxel granularity, feasible-shift
region, satisfiability assert, the sampling loop, and the final rewrite of the
request's regions.  `ok none` means the fuelled loop was cut off; any
terminating run of the source loop corresponds to some finite fuel. -/
def prepare (cfg : RLCfg) (pointsIn : Roi → List (Nat × Coordinate))
    (maskEnv : Option MaskEnv) (upstream : ProviderSpec) (upstreamRoi : Roi)
    (request : Request) (rngs : Nat → StepRng) (fuel : Nat) :
    Except PrepError (Option (Request × Accepted)) :=
  prepareWithLcm cfg pointsIn maskEnv upstream upstreamRoi request rngs fuel
    (getLcmVoxelSize upstream (request.arrays.map Prod.fst))

/-- A point set of a batch: its region and its data, a mapping from point id
to location. -/
structure PointsEntry where
  roi : Roi
  data : List (Nat × Coordinate)
deriving DecidableEq, Repr

/-- A batch flowing back downstream: per-key array regions and point sets
(only the fields `RandomLocation.process` touches). -/
structure Batch where
  arrays : List (Nat × Roi)
  points : List (Nat × PointsEntry)
deriving DecidableEq, Repr

/-- `RandomLocation.process` (lines 227-237): reset every requested array and
point-set region to the request's region, and translate every point location
of a requested point set by `-random_shift`.  The source mutates
`batch[key]` for each requested key (a `KeyError` if the batch lacks it);
this is embedded as a map over the batch's entries, which agrees with the
source whenever every requested key is present in the batch. -/
def process (batch : Batch) (request : Request) (randomShift : Coordinate) : Batch :=
  { arrays := batch.arrays.map (fun e =>
      match request.arrays.lookup e.1 with
      | some r => (e.1, r)
      | none => e),
    points := batch.points.map (fun e =>
      match request.points.lookup e.1 with
      | some r =>
        (e.1, { roi := r,
                data := e.2.data.map (fun p => (p.1, p.2 - randomShift)) })
      | none => e) }

/-- The array dtypes `Normalize.process` distinguishes: `np.uint8`,
`np.float32`, and everything else. -/
inductive NpDtype where
  | uint8 : NpDtype
  | float32 : NpDtype
  | other : NpDtype
deriving DecidableEq, Repr

/-- An array as `Normalize` sees it: its dtype and its values. -/
structure NArray where
  dtype : NpDtype
  data : List ℚ
deriving DecidableEq, Repr

/-- The failures `Normalize.process` can raise. -/
inductive NormError where
  /-- the `assert ... min() >= 0 and ... max() <= 1` on line 32. -/
  | assertionFailed : NormError
  /-- the `raise RuntimeError("Automatic normalization for ... not
  implemented")` on line 37. -/
  | runtimeError : NormError
deriving DecidableEq, Repr

/-- Lines 31-35: the `float32` branch — values must already lie in `[0,1]`
(the line-32 assert), and the factor is `1.0`. -/
def normalizeFloat32 (outDtype : NpDtype) (data : List ℚ) :
    Except NormError NArray :=
  if data.all (fun v => decide (0 ≤ v) && decide (v ≤ 1)) then
    .ok { dtype := outDtype, data := data.map (fun v => v * 1) }
  else .error .assertionFailed

/-- `Normalize.process` (lines 19-42): pick the factor — the configured one,
else `1.0/255` for `uint8`, `1.0` for `float32` with all values in `[0,1]`
(an `AssertionError` otherwise), a `RuntimeError` for any other dtype — and
replace the data by `data.astype(dtype) * factor`.  The cast to the output
dtype (`np.float32` by default) is value-preserving here, values being
embedded as rationals. -/
def normalizeProcess (factor : Option ℚ) (outDtype : NpDtype) (a : NArray) :
    Except NormError NArray :=
  match factor with
  | some f => .ok { dtype := outDtype, data := a.data.map (fun v => v * f) }
  | none =>
    match a.dtype with
    | .uint8 => .ok { dtype := outDtype, data := a.data.map (fun v => v * (1 / 255)) }
    | .float32 => normalizeFloat32 outDtype a.data
    | .other => .error .runtimeError

/-- The design document's reading of step 1 of the sampler: the list of
per-key feasible-shift regions `type_shift_roi`, one per requested key, each
computed by the line-115 formula
`provided_roi.shift(-request_roi.begin).grow(0, -request_roi.shape)`;
`none` when some requested key has no provided region. -/
def specTypeShiftRois (upstream : ProviderSpec) : List (Nat × Roi) → Option (List Roi)
  | [] => some []
  | (k, rr) :: rest =>
    match lookupProvided upstream k with
    | some (some pr) =>
      (specTypeShiftRois upstream rest).map (fun ts => typeShiftRoi pr rr :: ts)
    | _ => none

theorem shiftRoiFold_some_char (upstream : ProviderSpec) :
    ∀ (items : List (Nat × Roi)) (acc res : Roi) (ts : List Roi),
      shiftRoiFold upstream items (some acc) = .ok (some res) →
      specTypeShiftRois upstream items = some ts →
      ∀ p, res.containsPointB p =
        (acc.containsPointB p && ts.all (fun t => t.containsPointB p)) := by
  intro items
  induction items with
  | nil =>
    intro acc res ts hf hs p
    simp only [shiftRoiFold] at hf
    simp only [specTypeShiftRois] at hs
    cases hf; cases hs
    simp
  | cons hd tl ih =>
    intro acc res ts hf hs p
    obtain ⟨k, rr⟩ := hd
    simp only [shiftRoiFold, specTypeShiftRois] at hf hs
    cases hlk : lookupProvided upstream k with
    | none => rw [hlk] at hf; cases hf
    | some pr? =>
      cases pr? with
      | none => rw [hlk] at hf hs; cases hf
      | some pr =>
        rw [hlk] at hf hs
        cases hts : specTypeShiftRois upstream tl with
        | none => rw [hts] at hs; cases hs
        | some ts2 =>
          rw [hts] at hs
          simp only [Option.map_some] at hs
          cases hs
          have h2 := ih (acc.intersect (typeShiftRoi pr rr)) res ts2 hf hts p
          rw [h2, Roi.containsPointB_intersect]
          simp [Bool.and_assoc]

theorem computeShiftRoi_char (upstream : ProviderSpec) (request : Request)
    (res : Roi) (ts : List Roi)
    (hf : computeShiftRoi upstream request = .ok (some res))
    (hs : specTypeShiftRois upstream (requestItems request) = some ts) :
    ∀ p, res.containsPointB p = ts.all (fun t => t.containsPointB p) := by
  unfold computeShiftRoi at hf
  cases hitems : requestItems request with
  | nil =>
    rw [hitems] at hf
    simp only [shiftRoiFold] at hf
    cases hf
  | cons hd tl =>
    obtain ⟨k, rr⟩ := hd
    rw [hitems] at hf hs
    simp only [shiftRoiFold, specTypeShiftRois] at hf hs
    cases hlk : lookupProvided upstream k with
    | none => rw [hlk] at hf; cases hf
    | some pr? =>
      cases pr? with
      | none => rw [hlk] at hf hs; cases hf
      | some pr =>
        rw [hlk] at hf hs
        cases hts : specTypeShiftRois upstream tl with
        | none => rw [hts] at hs; cases hs
        | some ts2 =>
          rw [hts] at hs
          simp only [Option.map_some] at hs
          cases hs
          intro p
          have h2 := shiftRoiFold_some_char upstream tl (typeShiftRoi pr rr)
            res ts2 hf hts p
          rw [h2]
          simp

/-- **C1.**  In `RandomLocation.prepare`, the per-key feasible-shift region is
`type_shift_roi = provided_roi.shift(-request_roi.begin).grow(0, -request_roi.shape)`
(the defining equation of `typeShiftRoi`, line 115), the overall region
`shift_roi` is the intersection of these regions over all requested keys —
a point lies in the computed region exactly when it lies in every per-key
region — and `prepare` fails with the unsatisfiable-request assert whenever
the intersection is empty (size 0), for every randomness stream and before
any shift is sampled. -/
theorem c1_feasible_shift_region_is_intersection_and_gates_prepare
    (upstream : ProviderSpec) (request : Request)
    (sr : Roi) (ts : List Roi) (lv : Option Coordinate)
    (hsr : computeShiftRoi upstream request = .ok (some sr))
    (hts : specTypeShiftRois upstream (requestItems request) = some ts)
    (hlcm : getLcmVoxelSize upstream (request.arrays.map Prod.fst) = .ok lv) :
    (∀ p, sr.containsPointB p = ts.all (fun t => t.containsPointB p)) ∧
    (sr.size ≤ 0 →
      ∀ cfg pointsIn maskEnv upstreamRoi rngs fuel,
        prepare cfg pointsIn maskEnv upstream upstreamRoi request rngs fuel =
          .error .unsatisfiable) := by
  constructor
  · exact computeShiftRoi_char upstream request sr ts hsr hts
  · intro hsz cfg pointsIn maskEnv uroi rngs fuel
    unfold prepare
    rw [hlcm]
    simp only [prepareWithLcm]
    rw [hsr]
    simp only [prepareWithShiftRoi]
    rw [show checkSatisfiable (some sr) = .error .unsatisfiable from by
      show (if 0 < sr.size then Except.ok sr
        else Except.error PrepError.unsatisfiable) = .error .unsatisfiable
      rw [if_neg (by omega)]]
    rfl

/-- A one-key pipeline for exercising the sampler's framing theorems:
an upstream provider bounded at `[0, 20)^3` with unit voxels. -/
def c1Up : ProviderSpec :=
  { arrays := [(1, { roi := some ⟨⟨0, 0, 0⟩, ⟨20, 20, 20⟩⟩, voxelSize := ⟨1, 1, 1⟩ })],
    points := [] }

/-- A request for `[0, 10)^3` of the one provided key. -/
def c1Req : Request :=
  { arrays := [(1, ⟨⟨0, 0, 0⟩, ⟨10, 10, 10⟩⟩)], points := [] }

/-- C1 at a concrete input: the computed region `[0, 10)^3` is exactly the
intersection of the (single) per-key region, and an empty region would gate
`prepare`. -/
theorem c1_witness :
    (∀ p, Roi.containsPointB ⟨⟨0, 0, 0⟩, ⟨10, 10, 10⟩⟩ p =
      [(⟨⟨0, 0, 0⟩, ⟨10, 10, 10⟩⟩ : Roi)].all (fun t => t.containsPointB p)) ∧
    (Roi.size ⟨⟨0, 0, 0⟩, ⟨10, 10, 10⟩⟩ ≤ 0 →
      ∀ cfg pointsIn maskEnv upstreamRoi rngs fuel,
        prepare cfg pointsIn maskEnv c1Up upstreamRoi c1Req rngs fuel =
          .error .unsatisfiable) :=
  c1_feasible_shift_region_is_intersection_and_gates_prepare c1Up c1Req
    ⟨⟨0, 0, 0⟩, ⟨10, 10, 10⟩⟩ [⟨⟨0, 0, 0⟩, ⟨10, 10, 10⟩⟩] (some ⟨1, 1, 1⟩)
    rfl rfl rfl

/-- Two bounded upstream arrays with heterogeneous voxel sizes: key 1 at
`[4, 24)^3` with voxels `(2,2,2)`, key 2 at `[3, 27)^3` with voxels
`(3,3,3)` (all offsets and shapes voxel-aligned). -/
def c2Up : ProviderSpec :=
  { arrays := [(1, { roi := some ⟨⟨4, 4, 4⟩, ⟨20, 20, 20⟩⟩, voxelSize := ⟨2, 2, 2⟩ }),
               (2, { roi := some ⟨⟨3, 3, 3⟩, ⟨24, 24, 24⟩⟩, voxelSize := ⟨3, 3, 3⟩ })],
    points := [] }

/-- A request whose shapes fit inside both provided regions: `[0, 10)^3` of
key 1 and `[0, 9)^3` of key 2. -/
def c2Req : Request :=
  { arrays := [(1, ⟨⟨0, 0, 0⟩, ⟨10, 10, 10⟩⟩), (2, ⟨⟨0, 0, 0⟩, ⟨9, 9, 9⟩⟩)],
    points := [] }

/-- A `RandomLocation` with no mask and no `ensure_nonempty` constraint. -/
def c2Cfg : RLCfg := ⟨0, none, none⟩

/-- The only randomness the run can consume: `randint(0, 0)` draws. -/
def c2Rngs : Nat → StepRng := fun _ => ⟨⟨0, 0, 0⟩, 0, fun _ => ⟨0, 0, 0⟩⟩

/-- **C2.**  The sampler violates its own line-224 assert on an in-contract
input.  With no mask and no `ensure_nonempty`, shapes fitting the per-key
provided regions, the feasible-shift region is `[4, 14)^3` (size `1000 > 0`);
the voxel granularity is `lcm((2,2,2),(3,3,3)) = (6,6,6)`; floor-dividing the
region by it yields `[0, 1)^3`, so the only value `randint` can draw is
`(0,0,0)` and the loop accepts the shift `(0,0,0)` — which lies outside the
feasible-shift region.  The shifted request `[0, 10)^3` of key 1 is neither
inside that key's provided region `[4, 24)^3` nor inside the total upstream
region `[3, 27)^3`, so `prepare` dies on its own
`assert self.upstream_roi.contains(roi)` instead of returning a valid
location. -/
theorem c2_chosen_shift_escapes_upstream_bounds :
    getTotalRoi c2Up = some ⟨⟨3, 3, 3⟩, ⟨24, 24, 24⟩⟩ ∧
    getLcmVoxelSize c2Up (c2Req.arrays.map Prod.fst) = .ok (some ⟨6, 6, 6⟩) ∧
    computeShiftRoi c2Up c2Req = .ok (some ⟨⟨4, 4, 4⟩, ⟨10, 10, 10⟩⟩) ∧
    0 < Roi.size ⟨⟨4, 4, 4⟩, ⟨10, 10, 10⟩⟩ ∧
    Roi.divR ⟨⟨4, 4, 4⟩, ⟨10, 10, 10⟩⟩ ⟨6, 6, 6⟩ = ⟨⟨0, 0, 0⟩, ⟨1, 1, 1⟩⟩ ∧
    (∀ q, inRandintRange ⟨⟨0, 0, 0⟩, ⟨1, 1, 1⟩⟩ q = true → q = ⟨0, 0, 0⟩) ∧
    prepareStep c2Cfg (fun _ => []) none c2Req ⟨⟨4, 4, 4⟩, ⟨10, 10, 10⟩⟩
      ⟨⟨0, 0, 0⟩, ⟨1, 1, 1⟩⟩ (some ⟨6, 6, 6⟩) (c2Rngs 0) =
      .ok (some ⟨⟨0, 0, 0⟩, none⟩) ∧
    Roi.containsPointB ⟨⟨4, 4, 4⟩, ⟨10, 10, 10⟩⟩ ⟨0, 0, 0⟩ = false ∧
    Roi.containsRoiB ⟨⟨4, 4, 4⟩, ⟨20, 20, 20⟩⟩
      (Roi.shift ⟨⟨0, 0, 0⟩, ⟨10, 10, 10⟩⟩ ⟨0, 0, 0⟩) = false ∧
    prepare c2Cfg (fun _ => []) none c2Up ⟨⟨3, 3, 3⟩, ⟨24, 24, 24⟩⟩ c2Req
      c2Rngs 1 = .error .assertionFailed := by
  refine ⟨rfl, rfl, rfl, by decide, rfl, ?_, rfl, by decide, by decide, rfl⟩
  intro q hq
  obtain ⟨q1, q2, q3⟩ := q
  simp only [inRandintRange, Bool.and_eq_true, Coordinate.leB_iff, Roi.getBegin,
    Roi.getEnd, Coordinate.add_def, Coordinate.sub_def] at hq
  have h1 : q1 = 0 ∧ q2 = 0 ∧ q3 = 0 := by omega
  rw [h1.1, h1.2.1, h1.2.2]

theorem Coordinate.sub_add_ones (a : Coordinate) :
    (a - ⟨1, 1, 1⟩) + ⟨1, 1, 1⟩ = a := by
  obtain ⟨ax, ay, az⟩ := a
  simp only [Coordinate.sub_def, Coordinate.add_def, Coordinate.mk.injEq]
  omega

/-- A step that exits the loop did so with the mask check reporting success. -/
theorem prepareStep_accept_maskGood (cfg : RLCfg)
    (pointsIn : Roi → List (Nat × Coordinate)) (maskEnv : Option MaskEnv)
    (request : Request) (shiftRoi lcmShiftRoi : Roi)
    (lcmVoxelSize : Option Coordinate) (rng : StepRng) (a : Accepted)
    (h : prepareStep cfg pointsIn maskEnv request shiftRoi lcmShiftRoi
      lcmVoxelSize rng = .ok (some a)) :
    maskGood cfg maskEnv request a.shift = .ok true := by
  unfold prepareStep at h
  revert h
  cases hpp : pointsPhase cfg pointsIn request shiftRoi
      (applyLcm lcmVoxelSize rng.q) rng with
  | error e => intro h; cases h
  | ok v =>
    obtain ⟨s, gp, ch⟩ := v
    intro h
    simp only [stepFinish] at h
    revert h
    cases hmg : maskGood cfg maskEnv request s with
    | error e => intro h; simp only [stepDecide] at h; cases h
    | ok gm =>
      intro h
      simp only [stepDecide] at h
      by_cases hc : (gp && gm) = true
      · rw [if_pos hc] at h
        simp only [Except.ok.injEq, Option.some.injEq] at h
        subst h
        simp only [Bool.and_eq_true] at hc
        rw [hc.2] at hmg
        exact hmg
      · rw [if_neg hc] at h
        cases h

/-- A loop run that exits with an accepted location did so with the mask
check reporting success at the accepted shift. -/
theorem prepareLoop_accept_maskGood (cfg : RLCfg)
    (pointsIn : Roi → List (Nat × Coordinate)) (maskEnv : Option MaskEnv)
    (request : Request) (shiftRoi lcmShiftRoi : Roi)
    (lcmVoxelSize : Option Coordinate) :
    ∀ (fuel : Nat) (rngs : Nat → StepRng) (a : Accepted),
      prepareLoop cfg pointsIn maskEnv request shiftRoi lcmShiftRoi
        lcmVoxelSize rngs fuel = .ok (some a) →
      maskGood cfg maskEnv request a.shift = .ok true := by
  intro fuel
  induction fuel with
  | zero => intro rngs a h; cases h
  | succ n ih =>
    intro rngs a h
    unfold prepareLoop at h
    split at h
    · cases h
    · rename_i heq
      cases h
      exact prepareStep_accept_maskGood cfg pointsIn maskEnv request shiftRoi
        lcmShiftRoi lcmVoxelSize (rngs 0) a heq
    · rename_i heq
      exact ih (fun i => rngs (i + 1)) a h

/-- One rejected iteration makes the loop consume one unit of fuel and one
randomness record, and resample. -/
theorem prepareLoop_resample (cfg : RLCfg)
    (pointsIn : Roi → List (Nat × Coordinate)) (maskEnv : Option MaskEnv)
    (request : Request) (shiftRoi lcmShiftRoi : Roi)
    (lcmVoxelSize : Option Coordinate) (rngs : Nat → StepRng) (n : Nat)
    (h : prepareStep cfg pointsIn maskEnv request shiftRoi lcmShiftRoi
      lcmVoxelSize (rngs 0) = .ok none) :
    prepareLoop cfg pointsIn maskEnv request shiftRoi lcmShiftRoi
      lcmVoxelSize rngs (n + 1) =
    prepareLoop cfg pointsIn maskEnv request shiftRoi lcmShiftRoi
      lcmVoxelSize (fun i => rngs (i + 1)) n := by
  conv_lhs => rw [prepareLoop]
  rw [h]

/-- Line 186: with no `ensure_nonempty` key configured, the points phase
reports success with the shift unchanged. -/
theorem pointsPhase_none (cfg : RLCfg) (pointsIn : Roi → List (Nat × Coordinate))
    (request : Request) (shiftRoi : Roi) (initial : Coordinate) (rng : StepRng)
    (h : cfg.ensureNonempty = none) :
    pointsPhase cfg pointsIn request shiftRoi initial rng =
      .ok (initial, true, none) := by
  unfold pointsPhase
  rw [h]
  rfl

/-- **C3.**  With a mask key configured and `min_masked > 0`, the sampling
loop terminates only with a shift whose masked-in fraction — the summed-area
table query over the binarized mask, divided by the region's size — reaches
`min_masked`; the table query over the shifted requested mask region equals
the direct count of masked-in voxels in it; and a rejected iteration merely
makes the loop resample with fresh randomness. -/
theorem c3_accepted_shift_has_mask_ratio_at_least_min_masked (cfg : RLCfg)
    (pointsIn : Roi → List (Nat × Coordinate)) (env : MaskEnv)
    (request : Request) (shiftRoi lcmShiftRoi : Roi)
    (lcmVoxelSize : Option Coordinate) (rngs : Nat → StepRng) (fuel : Nat)
    (a : Accepted) (mk0 : Nat) (mroi sroi : Roi)
    (hmk : cfg.mask = some mk0) (hmin : 0 < cfg.minMasked)
    (hreq : request.arrays.lookup mk0 = some mroi)
    (hsroi : env.maskSpecRoi = some sroi)
    (hrun : prepareLoop cfg pointsIn (some env) request shiftRoi lcmShiftRoi
      lcmVoxelSize rngs fuel = .ok (some a)) :
    cfg.minMasked ≤ maskRatio env.maskBin
      (requestMaskRoiInArray sroi env.maskVoxelSize mroi a.shift) ∧
    (∀ (f : Coordinate → Bool) (r : Roi),
      integrateQuery f r.getBegin (r.getEnd - ⟨1, 1, 1⟩) =
        countIn f r.getBegin r.getEnd) ∧
    (∀ (n : Nat) (rngs2 : Nat → StepRng),
      prepareStep cfg pointsIn (some env) request shiftRoi lcmShiftRoi
        lcmVoxelSize (rngs2 0) = .ok none →
      prepareLoop cfg pointsIn (some env) request shiftRoi lcmShiftRoi
        lcmVoxelSize rngs2 (n + 1) =
      prepareLoop cfg pointsIn (some env) request shiftRoi lcmShiftRoi
        lcmVoxelSize (fun i => rngs2 (i + 1)) n) := by
  refine ⟨?_, ?_, ?_⟩
  · have hmg := prepareLoop_accept_maskGood cfg pointsIn (some env) request
      shiftRoi lcmShiftRoi lcmVoxelSize fuel rngs a hrun
    unfold maskGood at hmg
    rw [if_pos ⟨by rw [hmk]; rfl, hmin⟩, hmk] at hmg
    simp only [maskCheck] at hmg
    rw [hreq, hsroi] at hmg
    simp only [maskCompare, Except.ok.injEq] at hmg
    exact of_decide_eq_true hmg
  · intro f r
    unfold integrateQuery
    rw [Coordinate.sub_add_ones]
  · intro n rngs2 hstep
    exact prepareLoop_resample cfg pointsIn (some env) request shiftRoi
      lcmShiftRoi lcmVoxelSize rngs2 n hstep

/-- A `RandomLocation` with a mask constraint: `min_masked = 1/2` on mask
key 1. -/
def c3Cfg : RLCfg := ⟨1 / 2, some 1, none⟩

/-- A fully masked-in environment built by `setup`: every voxel binarizes to
`true`, the mask spec covers `[0, 4)^3` with unit voxels. -/
def c3Env : MaskEnv :=
  { maskBin := fun _ => true, maskSpecRoi := some ⟨⟨0, 0, 0⟩, ⟨4, 4, 4⟩⟩,
    maskVoxelSize := ⟨1, 1, 1⟩ }

/-- A request for `[0, 2)^3` of the mask key. -/
def c3Req : Request := { arrays := [(1, ⟨⟨0, 0, 0⟩, ⟨2, 2, 2⟩⟩)], points := [] }

/-- Randomness that always draws the zero shift. -/
def c3Rngs : Nat → StepRng := fun _ => ⟨⟨0, 0, 0⟩, 0, fun _ => ⟨0, 0, 0⟩⟩

/-- C3 at a concrete input: a loop run over a fully masked-in region accepts
the zero shift, whose mask ratio `8/8 = 1` reaches `min_masked = 1/2`. -/
theorem c3_witness :
    c3Cfg.minMasked ≤ maskRatio c3Env.maskBin
      (requestMaskRoiInArray ⟨⟨0, 0, 0⟩, ⟨4, 4, 4⟩⟩ c3Env.maskVoxelSize
        ⟨⟨0, 0, 0⟩, ⟨2, 2, 2⟩⟩ ⟨0, 0, 0⟩) ∧
    (∀ (f : Coordinate → Bool) (r : Roi),
      integrateQuery f r.getBegin (r.getEnd - ⟨1, 1, 1⟩) =
        countIn f r.getBegin r.getEnd) ∧
    (∀ (n : Nat) (rngs2 : Nat → StepRng),
      prepareStep c3Cfg (fun _ => []) (some c3Env) c3Req ⟨⟨0, 0, 0⟩, ⟨2, 2, 2⟩⟩
        ⟨⟨0, 0, 0⟩, ⟨2, 2, 2⟩⟩ (some ⟨1, 1, 1⟩) (rngs2 0) = .ok none →
      prepareLoop c3Cfg (fun _ => []) (some c3Env) c3Req ⟨⟨0, 0, 0⟩, ⟨2, 2, 2⟩⟩
        ⟨⟨0, 0, 0⟩, ⟨2, 2, 2⟩⟩ (some ⟨1, 1, 1⟩) rngs2 (n + 1) =
      prepareLoop c3Cfg (fun _ => []) (some c3Env) c3Req ⟨⟨0, 0, 0⟩, ⟨2, 2, 2⟩⟩
        ⟨⟨0, 0, 0⟩, ⟨2, 2, 2⟩⟩ (some ⟨1, 1, 1⟩) (fun i => rngs2 (i + 1)) n) := by
  have hP : c3Cfg.minMasked ≤ maskRatio c3Env.maskBin
      (requestMaskRoiInArray ⟨⟨0, 0, 0⟩, ⟨4, 4, 4⟩⟩ c3Env.maskVoxelSize
        ⟨⟨0, 0, 0⟩, ⟨2, 2, 2⟩⟩ (applyLcm (some ⟨1, 1, 1⟩) (c3Rngs 0).q)) := by
    show (1 / 2 : ℚ) ≤ ((8 : ℤ) : ℚ) / ((8 : ℤ) : ℚ)
    norm_num
  have hmg : maskGood c3Cfg (some c3Env) c3Req
      (applyLcm (some ⟨1, 1, 1⟩) (c3Rngs 0).q) = .ok true := by
    unfold maskGood
    rw [if_pos ⟨rfl, by norm_num [c3Cfg]⟩]
    rw [show c3Cfg.mask = some 1 from rfl]
    simp only [maskCheck]
    rw [show c3Req.arrays.lookup 1 = some ⟨⟨0, 0, 0⟩, ⟨2, 2, 2⟩⟩ from rfl,
      show c3Env.maskSpecRoi = some ⟨⟨0, 0, 0⟩, ⟨4, 4, 4⟩⟩ from rfl]
    simp only [maskCompare]
    rw [decide_eq_true hP]
  have hstep : prepareStep c3Cfg (fun _ => []) (some c3Env) c3Req
      ⟨⟨0, 0, 0⟩, ⟨2, 2, 2⟩⟩ ⟨⟨0, 0, 0⟩, ⟨2, 2, 2⟩⟩ (some ⟨1, 1, 1⟩)
      (c3Rngs 0) =
      .ok (some ⟨applyLcm (some ⟨1, 1, 1⟩) (c3Rngs 0).q, none⟩) := by
    unfold prepareStep
    rw [pointsPhase_none _ _ _ _ _ _ rfl]
    simp only [stepFinish]
    rw [hmg]
    simp only [stepDecide]
    rfl
  have hrun : prepareLoop c3Cfg (fun _ => []) (some c3Env) c3Req
      ⟨⟨0, 0, 0⟩, ⟨2, 2, 2⟩⟩ ⟨⟨0, 0, 0⟩, ⟨2, 2, 2⟩⟩ (some ⟨1, 1, 1⟩)
      c3Rngs 1 = .ok (some ⟨⟨0, 0, 0⟩, none⟩) := by
    conv_lhs => rw [prepareLoop]
    rw [hstep]
    rfl
  exact c3_accepted_shift_has_mask_ratio_at_least_min_masked c3Cfg
    (fun _ => []) c3Env c3Req ⟨⟨0, 0, 0⟩, ⟨2, 2, 2⟩⟩ ⟨⟨0, 0, 0⟩, ⟨2, 2, 2⟩⟩
    (some ⟨1, 1, 1⟩) c3Rngs 1 ⟨⟨0, 0, 0⟩, none⟩ 1 ⟨⟨0, 0, 0⟩, ⟨2, 2, 2⟩⟩
    ⟨⟨0, 0, 0⟩, ⟨4, 4, 4⟩⟩ rfl (by norm_num [c3Cfg]) rfl rfl hrun

/-- Inverting an accepting iteration: the points phase reported success with
the accepted shift and chosen point, and the mask check passed. -/
theorem stepFinish_ok_some (cfg : RLCfg) (maskEnv : Option MaskEnv)
    (request : Request)
    (r : Except PrepError (Coordinate × Bool × Option (Nat × Coordinate)))
    (a : Accepted) (h : stepFinish cfg maskEnv request r = .ok (some a)) :
    r = .ok (a.shift, true, a.chosenPoint) ∧
      maskGood cfg maskEnv request a.shift = .ok true := by
  revert h
  cases r with
  | error e => intro h; cases h
  | ok v =>
    obtain ⟨s, gp, ch⟩ := v
    intro h
    simp only [stepFinish] at h
    revert h
    cases hmg : maskGood cfg maskEnv request s with
    | error e => intro h; simp only [stepDecide] at h; cases h
    | ok gm =>
      intro h
      simp only [stepDecide] at h
      by_cases hc : (gp && gm) = true
      · rw [if_pos hc] at h
        simp only [Except.ok.injEq, Option.some.injEq] at h
        subst h
        simp only [Bool.and_eq_true] at hc
        obtain ⟨hgp, hgm⟩ := hc
        subst hgm
        exact ⟨by rw [hgp], hmg⟩
      · rw [if_neg hc] at h
        cases h

/-- Containment in a shifted region, read back in the unshifted frame and
relative to the region's origin. -/
theorem containsPointB_shift_back (off shape s loc : Coordinate)
    (h : (Roi.mk (s + off) shape).containsPointB loc = true) :
    (Roi.mk off shape).containsPointB (loc - s) = true ∧
      (Roi.mk ⟨0, 0, 0⟩ shape).containsPointB (loc - s - off) = true := by
  simp only [Roi.containsPointB_iff, Coordinate.add_def,
    Coordinate.sub_def] at h ⊢
  omega

/-- Every array entry of a processed batch: requested keys carry the
request's region, the rest are untouched. -/
theorem process_arrays_mem (b : Batch) (request : Request)
    (randomShift : Coordinate) :
    ∀ e ∈ (process b request randomShift).arrays,
      (match request.arrays.lookup e.1 with
       | some r => e.2 = r
       | none => e ∈ b.arrays) := by
  intro e he
  unfold process at he
  simp only [List.mem_map] at he
  obtain ⟨orig, ho, heq⟩ := he
  revert heq
  cases hl : request.arrays.lookup orig.1 with
  | none =>
    intro heq
    subst heq
    rw [hl]
    exact ho
  | some r =>
    intro heq
    subst heq
    rw [show ((orig.1, r) : Nat × Roi).1 = orig.1 from rfl, hl]

/-- Every point-set entry of a processed batch comes from a batch entry with
the same key; for requested keys its region is the request's and every
location is translated by `-random_shift`, the rest are untouched. -/
theorem process_points_mem (b : Batch) (request : Request)
    (randomShift : Coordinate) :
    ∀ e ∈ (process b request randomShift).points,
      ∃ orig, orig ∈ b.points ∧ e.1 = orig.1 ∧
        (match request.points.lookup orig.1 with
         | some r => e.2.roi = r ∧
             e.2.data = orig.2.data.map (fun p => (p.1, p.2 - randomShift))
         | none => e.2 = orig.2) := by
  intro e he
  unfold process at he
  simp only [List.mem_map] at he
  obtain ⟨orig, ho, heq⟩ := he
  refine ⟨orig, ho, ?_⟩
  revert heq
  cases hl : request.points.lookup orig.1 with
  | none =>
    intro heq
    subst heq
    exact ⟨rfl, rfl⟩
  | some r =>
    intro heq
    subst heq
    exact ⟨rfl, rfl, rfl⟩

/-- A `RandomLocation` with `ensure_nonempty` on points key 7. -/
def epCfg : RLCfg := ⟨0, none, some 7⟩

/-- An upstream provider with one array key (voxels `(2,2,2)`) and the
point-set key 7, both bounded at `[0, 40)^3`. -/
def epUp : ProviderSpec :=
  { arrays := [(1, { roi := some ⟨⟨0, 0, 0⟩, ⟨40, 40, 40⟩⟩,
                     voxelSize := ⟨2, 2, 2⟩ })],
    points := [(7, some ⟨⟨0, 0, 0⟩, ⟨40, 40, 40⟩⟩)] }

/-- A request for `[0, 10)^3` of the array key and of the focused points key. -/
def epReq : Request :=
  { arrays := [(1, ⟨⟨0, 0, 0⟩, ⟨10, 10, 10⟩⟩)],
    points := [(7, ⟨⟨0, 0, 0⟩, ⟨10, 10, 10⟩⟩)] }

/-- A deterministic upstream point provider holding exactly one point,
id 42 at `(5,5,5)`. -/
def epPointsIn : Roi → List (Nat × Coordinate) := fun _ => [(42, ⟨5, 5, 5⟩)]

/-- A request with one array key of voxel size `(2,2,2)` and no points. -/
def c6Req : Request :=
  { arrays := [(1, ⟨⟨0, 0, 0⟩, ⟨10, 10, 10⟩⟩)], points := [] }

/-- Randomness drawing the lattice point `(3,3,3)`. -/
def c6Rng : StepRng := ⟨⟨3, 3, 3⟩, 0, fun _ => ⟨0, 0, 0⟩⟩

/-- An upstream provider with one array key (voxels `(2,2,2)`) bounded at
`[0, 40)^3` and no point sets. -/
def c6Up : ProviderSpec :=
  { arrays := [(1, { roi := some ⟨⟨0, 0, 0⟩, ⟨40, 40, 40⟩⟩,
                     voxelSize := ⟨2, 2, 2⟩ })],
    points := [] }

/-- The points phase succeeds only on the `ensure_nonempty = None` branch
(line 185), and then it passes the initial shift through unchanged: with a
key configured, line 147 raises `KeyError` or line 153 raises `NameError`. -/
theorem pointsPhase_ok_inv (cfg : RLCfg)
    (pointsIn : Roi → List (Nat × Coordinate)) (request : Request)
    (shiftRoi : Roi) (initial : Coordinate) (rng : StepRng)
    (v : Coordinate × Bool × Option (Nat × Coordinate))
    (h : pointsPhase cfg pointsIn request shiftRoi initial rng = .ok v) :
    cfg.ensureNonempty = none ∧ v = (initial, true, none) := by
  unfold pointsPhase at h
  revert h
  cases he : cfg.ensureNonempty with
  | none =>
    intro h
    simp only [pointsPhaseGo, Except.ok.injEq] at h
    exact ⟨rfl, h.symm⟩
  | some pk =>
    simp only [pointsPhaseGo]
    cases hl : request.points.lookup pk with
    | none => intro h; cases h
    | some froi => intro h; cases h

/-- Every shift the sampling loop accepts is the iteration's outer draw
multiplied back by the voxel granularity (lines 136-140): the points phase
can never substitute a different shift. -/
theorem prepareLoop_accept_shift (cfg : RLCfg)
    (pointsIn : Roi → List (Nat × Coordinate)) (maskEnv : Option MaskEnv)
    (request : Request) (shiftRoi lcmShiftRoi : Roi)
    (lcmVoxelSize : Option Coordinate) :
    ∀ (fuel : Nat) (rngs : Nat → StepRng) (a : Accepted),
      prepareLoop cfg pointsIn maskEnv request shiftRoi lcmShiftRoi
        lcmVoxelSize rngs fuel = .ok (some a) →
      ∃ q, a.shift = applyLcm lcmVoxelSize q := by
  intro fuel
  induction fuel with
  | zero => intro rngs a h; cases h
  | succ n ih =>
    intro rngs a h
    unfold prepareLoop at h
    split at h
    · cases h
    · rename_i heq
      cases h
      have h1 := stepFinish_ok_some cfg maskEnv request
        (pointsPhase cfg pointsIn request shiftRoi
          (applyLcm lcmVoxelSize (rngs 0).q) (rngs 0)) a heq
      have h2 := pointsPhase_ok_inv cfg pointsIn request shiftRoi
        (applyLcm lcmVoxelSize (rngs 0).q) (rngs 0)
        (a.shift, true, a.chosenPoint) h1.1
      exact ⟨(rngs 0).q, congrArg Prod.fst h2.2⟩
    · exact ih (fun i => rngs (i + 1)) a h

/-- A successful `prepare` run came from an accepting run of the sampling
loop over the checked feasible-shift region. -/
theorem prepare_ok_some_inv (cfg : RLCfg)
    (pointsIn : Roi → List (Nat × Coordinate)) (maskEnv : Option MaskEnv)
    (upstream : ProviderSpec) (uroi : Roi) (request : Request)
    (rngs : Nat → StepRng) (fuel : Nat) (lv : Option Coordinate)
    (req2 : Request) (a : Accepted)
    (hlcm : getLcmVoxelSize upstream (request.arrays.map Prod.fst) = .ok lv)
    (h : prepare cfg pointsIn maskEnv upstream uroi request rngs fuel =
      .ok (some (req2, a))) :
    ∃ sr, prepareLoop cfg pointsIn maskEnv request sr
      (quantizeShiftRoi lv sr) lv rngs fuel = .ok (some a) := by
  unfold prepare at h
  rw [hlcm] at h
  simp only [prepareWithLcm] at h
  revert h
  cases hsr : computeShiftRoi upstream request with
  | error e => intro h; simp only [prepareWithShiftRoi] at h; cases h
  | ok sro =>
    intro h
    simp only [prepareWithShiftRoi] at h
    revert h
    cases hcs : checkSatisfiable sro with
    | error e => intro h; simp only [prepareChecked] at h; cases h
    | ok sroi =>
      intro h
      simp only [prepareChecked] at h
      revert h
      cases hloop : prepareLoop cfg pointsIn maskEnv request sroi
          (quantizeShiftRoi lv sroi) lv rngs fuel with
      | error e => intro h; simp only [prepareSampled] at h; cases h
      | ok o =>
        cases o with
        | none => intro h; simp only [prepareSampled] at h; cases h
        | some a2 =>
          intro h
          simp only [prepareSampled] at h
          revert h
          cases hsrr : shiftRequestRois request a2.shift uroi with
          | error e => intro h; simp only [prepareFinal] at h; cases h
          | ok r2 =>
            intro h
            simp only [prepareFinal, Except.ok.injEq, Option.some.injEq,
              Prod.mk.injEq] at h
            exact ⟨sroi, by rw [hloop, h.2]⟩

/-- **C4.**  The claimed behaviour of `ensure_nonempty` — a per-iteration
local-shift search of at most `max_trials = 100000` attempts whose exhaustion
only rejects the iteration and resamples — is unreachable: line 153 evaluates
`PointsSpec`, a name `random_location.py` never imports, so every iteration
with `ensure_nonempty` set raises `NameError` before the point prefetch and
the search (or `KeyError` at line 147 if the request lacks the key).  A
request with the configured points key makes `prepare` fail fatally on its
first iteration, never resampling. -/
theorem c4_ensure_nonempty_raises_name_error_before_local_search :
    (∀ (cfg : RLCfg) (pointsIn : Roi → List (Nat × Coordinate))
        (request : Request) (shiftRoi : Roi) (initial : Coordinate)
        (rng : StepRng) (pk : Nat) (froi : Roi),
      cfg.ensureNonempty = some pk →
      request.points.lookup pk = some froi →
      pointsPhase cfg pointsIn request shiftRoi initial rng =
        .error .nameError) ∧
    (∀ (rngs : Nat → StepRng) (n : Nat),
      prepare epCfg epPointsIn none epUp ⟨⟨0, 0, 0⟩, ⟨40, 40, 40⟩⟩ epReq rngs
        (n + 1) = .error .nameError) := by
  constructor
  · intro cfg pointsIn request shiftRoi initial rng pk froi hpk hfroi
    unfold pointsPhase
    rw [hpk]
    simp only [pointsPhaseGo]
    rw [hfroi]
  · intro rngs n
    rfl

/-- **C5.**  The frame-restoring half of the claim holds of `process`
(lines 227-237): every requested array and point-set region of the returned
batch is rewritten back to the originally requested frame, every point
location is translated by `-random_shift`, and a point inside a
shifted region reads back inside `[0, shape)` of the unshifted frame.  But
the chosen-point half is unreachable: an iteration accepted under
`ensure_nonempty` cannot exist, because line 153 raises `NameError`
(unimported `PointsSpec`) before any point is chosen, so `prepare` fails
fatally and no batch reaches `process` on that path. -/
theorem c5_process_restores_request_frame_but_chosen_point_unreachable :
    (∀ (b : Batch) (request : Request) (shift : Coordinate),
      ∀ e ∈ (process b request shift).arrays,
        (match request.arrays.lookup e.1 with
         | some r => e.2 = r
         | none => e ∈ b.arrays)) ∧
    (∀ (b : Batch) (request : Request) (shift : Coordinate),
      ∀ e ∈ (process b request shift).points,
        ∃ orig, orig ∈ b.points ∧ e.1 = orig.1 ∧
          (match request.points.lookup orig.1 with
           | some r => e.2.roi = r ∧
               e.2.data = orig.2.data.map (fun p => (p.1, p.2 - shift))
           | none => e.2 = orig.2)) ∧
    (∀ (off shape s loc : Coordinate),
      (Roi.mk (s + off) shape).containsPointB loc = true →
        (Roi.mk off shape).containsPointB (loc - s) = true ∧
        (Roi.mk ⟨0, 0, 0⟩ shape).containsPointB (loc - s - off) = true) ∧
    (∀ (rngs : Nat → StepRng) (n : Nat),
      prepare epCfg epPointsIn none epUp ⟨⟨0, 0, 0⟩, ⟨40, 40, 40⟩⟩ epReq rngs
        (n + 1) = .error .nameError) :=
  ⟨process_arrays_mem, process_points_mem, containsPointB_shift_back,
    fun _ _ => rfl⟩

/-- **C6.**  When the request contains array specs, the voxel granularity
resolves to the LCM voxel size `l` of the requested arrays, `prepare` samples
inside the feasible-shift region divided by `l` and multiplies the draw back
(lines 128-140); every `random_shift` a successful run chooses is that
multiplied-back draw — the points path cannot substitute another shift, since
with `ensure_nonempty` it raises before choosing — and is therefore
componentwise an exact integer multiple of `l`. -/
theorem c6_chosen_shift_is_multiple_of_lcm_voxel_size (cfg : RLCfg)
    (pointsIn : Roi → List (Nat × Coordinate)) (maskEnv : Option MaskEnv)
    (upstream : ProviderSpec) (uroi : Roi) (request : Request)
    (rngs : Nat → StepRng) (fuel : Nat) (l : Coordinate) (req2 : Request)
    (a : Accepted)
    (hlcm : getLcmVoxelSize upstream (request.arrays.map Prod.fst) =
      .ok (some l))
    (hrun : prepare cfg pointsIn maskEnv upstream uroi request rngs fuel =
      .ok (some (req2, a))) :
    (∃ q, a.shift = q * l) ∧ Coordinate.isMultipleOf l a.shift := by
  obtain ⟨sr, hloop⟩ := prepare_ok_some_inv cfg pointsIn maskEnv upstream
    uroi request rngs fuel (some l) req2 a hlcm hrun
  obtain ⟨q, hq⟩ := prepareLoop_accept_shift cfg pointsIn maskEnv request sr
    (quantizeShiftRoi (some l) sr) (some l) fuel rngs a hloop
  have hq2 : a.shift = q * l := hq
  refine ⟨⟨q, hq2⟩, ?_⟩
  rw [hq2, Coordinate.mul_def]
  exact ⟨dvd_mul_left l.x q.x, dvd_mul_left l.y q.y, dvd_mul_left l.z q.z⟩

/-- C6 at a concrete input: the LCM voxel size is `(2,2,2)`, the run draws
`(3,3,3)` in the divided region and accepts `random_shift = (6,6,6)`, a
multiple of the LCM voxel size. -/
theorem c6_witness :
    (∃ q, (Accepted.mk ⟨6, 6, 6⟩ none).shift = q * (⟨2, 2, 2⟩ : Coordinate)) ∧
    Coordinate.isMultipleOf ⟨2, 2, 2⟩ (Accepted.mk ⟨6, 6, 6⟩ none).shift :=
  c6_chosen_shift_is_multiple_of_lcm_voxel_size c2Cfg (fun _ => []) none
    c6Up ⟨⟨0, 0, 0⟩, ⟨40, 40, 40⟩⟩ c6Req (fun _ => c6Rng) 1 ⟨2, 2, 2⟩
    ⟨[(1, ⟨⟨6, 6, 6⟩, ⟨10, 10, 10⟩⟩)], []⟩ ⟨⟨6, 6, 6⟩, none⟩ rfl rfl

/-- **C7 (amended).**  `RandomLocation.setup` raises the no-bounding-box
`RuntimeError` exactly when the upstream provider's total region is `None`;
but that is not its only fatal failure: `setup` succeeds if and only if a
bounding box exists *and*, when a mask key with `min_masked > 0` is
configured, the upstream provider declares that key (setup's line-62 assert
fails otherwise, even with a perfectly good bounding box). -/
theorem c7_amended_setup_failure_characterization (cfg : RLCfg)
    (up : ProviderSpec) (md : Coordinate → Int) :
    (setup cfg up md = .error .noBoundingBox ↔ getTotalRoi up = none) ∧
    ((∃ r, setup cfg up md = .ok r) ↔
      (getTotalRoi up ≠ none ∧
        (cfg.mask.isSome = true ∧ 0 < cfg.minMasked →
          ∃ mk info, cfg.mask = some mk ∧ up.arrays.lookup mk = some info))) := by
  unfold setup
  cases ht : getTotalRoi up with
  | none =>
    constructor
    · exact ⟨fun _ => rfl, fun _ => rfl⟩
    · constructor
      · intro ⟨r, h⟩; cases h
      · intro ⟨h, _⟩; exact absurd rfl h
  | some t =>
    by_cases hc : cfg.mask.isSome = true ∧ 0 < cfg.minMasked
    · simp only [setupGo]
      rw [if_pos hc]
      cases hm : cfg.mask with
      | none => rw [hm] at hc; exact absurd hc.1 (by simp)
      | some mk =>
        simp only [setupMask]
        cases hl : up.arrays.lookup mk with
        | none =>
          simp only [setupMaskLookup]
          constructor
          · constructor
            · intro h; cases h
            · intro h; cases h
          · constructor
            · intro ⟨r, h⟩; cases h
            · intro ⟨_, himp⟩
              obtain ⟨mk2, info, hmk2, hl2⟩ := himp ⟨rfl, hc.2⟩
              cases hmk2
              rw [hl] at hl2
              cases hl2
        | some info =>
          simp only [setupMaskLookup]
          constructor
          · constructor
            · intro h; cases h
            · intro h; cases h
          · constructor
            · intro _
              exact ⟨by simp, fun _ => ⟨mk, info, rfl, hl⟩⟩
            · intro _
              exact ⟨_, rfl⟩
    · simp only [setupGo]
      rw [if_neg hc]
      constructor
      · constructor
        · intro h; cases h
        · intro h; cases h
      · constructor
        · intro _
          exact ⟨by simp, fun h => absurd h hc⟩
        · intro _
          exact ⟨_, rfl⟩

/-- A `RandomLocation` configured with `min_masked = 1` on mask key 0. -/
def c7Cfg : RLCfg := ⟨1, some 0, none⟩

/-- An upstream provider with a perfectly good bounding box (`[0, 20)^3`)
that does not provide the mask key 0. -/
def c7Up : ProviderSpec :=
  { arrays := [(1, { roi := some ⟨⟨0, 0, 0⟩, ⟨20, 20, 20⟩⟩,
                     voxelSize := ⟨1, 1, 1⟩ })],
    points := [] }

/-- **C7 counterexample.**  `setup` fails (on the line-62 mask assert) even
though the upstream provider has a bounding box, refuting the claimed
"if and only if the upstream provider has no bounding box". -/
theorem c7_counterexample_setup_fails_despite_bounding_box :
    setup c7Cfg c7Up (fun _ => 0) = .error .maskMissing ∧
    getTotalRoi c7Up = some ⟨⟨0, 0, 0⟩, ⟨20, 20, 20⟩⟩ ∧
    setup c7Cfg c7Up (fun _ => 0) ≠ .error .noBoundingBox := by
  have hs : setup c7Cfg c7Up (fun _ => 0) = .error .maskMissing := by
    unfold setup
    rw [show getTotalRoi c7Up = some ⟨⟨0, 0, 0⟩, ⟨20, 20, 20⟩⟩ from rfl]
    simp only [setupGo]
    rw [if_pos ⟨rfl, by norm_num [c7Cfg]⟩]
    rw [show c7Cfg.mask = some 0 from rfl]
    simp only [setupMask]
    rw [show c7Up.arrays.lookup 0 = none from rfl]
    rfl
  exact ⟨hs, rfl, by rw [hs]; intro h; cases h⟩

/-- A successful association-list lookup exhibits a member with that key. -/
theorem lookup_mem {β : Type _} (k : Nat) (v : β) :
    ∀ l : List (Nat × β), l.lookup k = some v → (k, v) ∈ l := by
  intro l
  induction l with
  | nil => intro h; cases h
  | cons hd tl ih =>
    intro h
    obtain ⟨k2, v2⟩ := hd
    simp only [List.lookup] at h
    revert h
    cases hbeq : k == k2 with
    | true =>
      intro h
      cases h
      have : k = k2 := by
        have := of_decide_eq_true (by simpa using hbeq)
        exact this
      subst this
      exact List.Mem.head tl
    | false =>
      intro h
      exact List.Mem.tail _ (ih h)

/-- In a provider whose every declared region is present (bounded), a found
key always carries a region. -/
theorem lookupProvided_bounded (up : ProviderSpec)
    (hb1 : ∀ e ∈ up.arrays, e.2.roi.isSome = true)
    (hb2 : ∀ e ∈ up.points, e.2.isSome = true)
    (k : Nat) (o : Option Roi) (h : lookupProvided up k = some o) :
    o.isSome = true := by
  unfold lookupProvided at h
  revert h
  cases ha : up.arrays.lookup k with
  | some info =>
    intro h
    cases h
    exact hb1 (k, info) (lookup_mem k info up.arrays ha)
  | none =>
    intro h
    exact hb2 (k, o) (lookup_mem k o up.points h)

/-- When some requested key has no provided region, the feasible-shift fold
dies with that key's missing-key exception (upstream assumed bounded). -/
theorem shiftRoiFold_missing (up : ProviderSpec)
    (hb1 : ∀ e ∈ up.arrays, e.2.roi.isSome = true)
    (hb2 : ∀ e ∈ up.points, e.2.isSome = true) :
    ∀ (items : List (Nat × Roi)) (acc : Option Roi),
      (∃ p ∈ items, lookupProvided up p.1 = none) →
      ∃ k2, lookupProvided up k2 = none ∧
        shiftRoiFold up items acc = .error (.missingKey k2) := by
  intro items
  induction items with
  | nil =>
    intro acc hex
    obtain ⟨p, hp, _⟩ := hex
    cases hp
  | cons hd tl ih =>
    intro acc hex
    obtain ⟨k, rr⟩ := hd
    cases hk : lookupProvided up k with
    | none =>
      refine ⟨k, hk, ?_⟩
      simp only [shiftRoiFold]
      rw [hk]
    | some o =>
      cases o with
      | none =>
        exact absurd (lookupProvided_bounded up hb1 hb2 k none hk) (by simp)
      | some pr =>
        have hex2 : ∃ p ∈ tl, lookupProvided up p.1 = none := by
          obtain ⟨p, hp, hpn⟩ := hex
          cases List.mem_cons.mp hp with
          | inl heq =>
            subst heq
            rw [hk] at hpn
            cases hpn
          | inr hmem => exact ⟨p, hmem, hpn⟩
        obtain ⟨k2, hk2, hfold⟩ := ih
          (some (match acc with
                 | none => typeShiftRoi pr rr
                 | some a => a.intersect (typeShiftRoi pr rr))) hex2
        refine ⟨k2, hk2, ?_⟩
        simp only [shiftRoiFold]
        rw [hk]
        exact hfold

/-- The voxel-size fold raises only `KeyError`. -/
theorem lcmVoxelFold_error (s : ProviderSpec) :
    ∀ (keys : List Nat) (acc : Coordinate) (e : PrepError),
      lcmVoxelFold s keys acc = .error e → e = .keyError := by
  intro keys
  induction keys with
  | nil => intro acc e h; cases h
  | cons k tl ih =>
    intro acc e h
    revert h
    simp only [lcmVoxelFold]
    cases hk : s.arrays.lookup k with
    | none => intro h; cases h; rfl
    | some info => intro h; exact ih _ e h

/-- `get_lcm_voxel_size` raises only `KeyError`. -/
theorem getLcmVoxelSize_error (s : ProviderSpec) (keys : List Nat)
    (e : PrepError) (h : getLcmVoxelSize s keys = .error e) : e = .keyError := by
  revert h
  cases keys with
  | nil => intro h; cases h
  | cons k tl =>
    simp only [getLcmVoxelSize]
    cases hk : s.arrays.lookup k with
    | none => intro h; cases h; rfl
    | some info =>
      intro h
      have h2 : getLcmTail (lcmVoxelFold s tl info.voxelSize) = .error e := h
      revert h2
      cases hf : lcmVoxelFold s tl info.voxelSize with
      | error e2 =>
        intro h2
        simp only [getLcmTail] at h2
        cases h2
        exact lcmVoxelFold_error s tl info.voxelSize _ hf
      | ok v =>
        intro h2
        simp only [getLcmTail] at h2
        cases h2

/-- **C8 (amended).**  References to keys the upstream provider lacks are
fatal, but not all of them at `setup()`: the configured mask key is checked
at `setup()` (the line-62 assert), while a requested key the upstream does
not provide only raises when `prepare` handles that request — before any
shift is sampled or any region rewritten — as a `KeyError` from the voxel-size
lookup or as the line-112 exception. -/
theorem c8_amended_mask_key_at_setup_request_key_at_prepare (cfg : RLCfg)
    (up : ProviderSpec) (md : Coordinate → Int) (request : Request)
    (mk0 : Nat) (t : Roi) (k : Nat)
    (hb1 : ∀ e ∈ up.arrays, e.2.roi.isSome = true)
    (hb2 : ∀ e ∈ up.points, e.2.isSome = true)
    (hmk : cfg.mask = some mk0) (hmin : 0 < cfg.minMasked)
    (hmiss : up.arrays.lookup mk0 = none)
    (ht : getTotalRoi up = some t)
    (hkmem : k ∈ (requestItems request).map Prod.fst)
    (hkmiss : lookupProvided up k = none) :
    setup cfg up md = .error .maskMissing ∧
    (∀ (pointsIn : Roi → List (Nat × Coordinate)) (maskEnv : Option MaskEnv)
        (uroi : Roi) (rngs : Nat → StepRng) (fuel : Nat),
      ∃ e, prepare cfg pointsIn maskEnv up uroi request rngs fuel = .error e ∧
        (e = .keyError ∨
          ∃ k2, e = .missingKey k2 ∧ lookupProvided up k2 = none)) := by
  constructor
  · unfold setup
    rw [ht]
    simp only [setupGo]
    rw [if_pos ⟨by rw [hmk]; rfl, hmin⟩, hmk]
    simp only [setupMask]
    rw [hmiss]
    rfl
  · intro pointsIn maskEnv uroi rngs fuel
    unfold prepare
    cases hlcm : getLcmVoxelSize up (request.arrays.map Prod.fst) with
    | error e =>
      exact ⟨e, rfl, Or.inl (getLcmVoxelSize_error up _ e hlcm)⟩
    | ok lv =>
      have hex : ∃ p ∈ requestItems request, lookupProvided up p.1 = none := by
        simp only [List.mem_map] at hkmem
        obtain ⟨p, hp, hpk⟩ := hkmem
        refine ⟨p, hp, ?_⟩
        rw [hpk]
        exact hkmiss
      obtain ⟨k2, hk2, hfold⟩ :=
        shiftRoiFold_missing up hb1 hb2 (requestItems request) none hex
      refine ⟨.missingKey k2, ?_, Or.inr ⟨k2, rfl, hk2⟩⟩
      simp only [prepareWithLcm]
      rw [show computeShiftRoi up request = .error (.missingKey k2) from hfold]
      rfl

/-- An upstream provider with only array key 1, bounded at `[0, 20)^3`. -/
def c8Up : ProviderSpec :=
  { arrays := [(1, { roi := some ⟨⟨0, 0, 0⟩, ⟨20, 20, 20⟩⟩,
                     voxelSize := ⟨1, 1, 1⟩ })],
    points := [] }

/-- A request naming the provided array key 1 and the unprovided points
key 2. -/
def c8Req : Request :=
  { arrays := [(1, ⟨⟨0, 0, 0⟩, ⟨10, 10, 10⟩⟩)],
    points := [(2, ⟨⟨0, 0, 0⟩, ⟨5, 5, 5⟩⟩)] }

/-- **C8 counterexample.**  A request referencing a key the upstream does not
provide sails through `setup()` — no error is raised there — and only fails
inside `prepare`, refuting "raised at setup()". -/
theorem c8_counterexample_missing_request_key_passes_setup :
    setup c2Cfg c8Up (fun _ => 0) =
      .ok { upstreamRoi := ⟨⟨0, 0, 0⟩, ⟨20, 20, 20⟩⟩,
            spec := { arrays := [(1, { roi := none, voxelSize := ⟨1, 1, 1⟩ })],
                      points := [] },
            maskEnv := none } ∧
    (∀ (pointsIn : Roi → List (Nat × Coordinate)) (maskEnv : Option MaskEnv)
        (uroi : Roi) (rngs : Nat → StepRng) (fuel : Nat),
      prepare c2Cfg pointsIn maskEnv c8Up uroi c8Req rngs fuel =
        .error (.missingKey 2)) :=
  ⟨rfl, fun _ _ _ _ _ => rfl⟩

/-- C8 (amended) at a concrete input: mask key 0 missing upstream fails at
`setup`, and the unprovided points key 2 of the request fails in `prepare`. -/
theorem c8_witness :
    setup c7Cfg c8Up (fun _ => 0) = .error .maskMissing ∧
    (∀ (pointsIn : Roi → List (Nat × Coordinate)) (maskEnv : Option MaskEnv)
        (uroi : Roi) (rngs : Nat → StepRng) (fuel : Nat),
      ∃ e, prepare c7Cfg pointsIn maskEnv c8Up uroi c8Req rngs fuel =
          .error e ∧
        (e = .keyError ∨
          ∃ k2, e = .missingKey k2 ∧ lookupProvided c8Up k2 = none)) :=
  c8_amended_mask_key_at_setup_request_key_at_prepare c7Cfg c8Up (fun _ => 0)
    c8Req 0 ⟨⟨0, 0, 0⟩, ⟨20, 20, 20⟩⟩ 2
    (by decide) (by decide) rfl (by norm_num [c7Cfg]) rfl rfl (by decide) rfl

/-- **C9.**  `Normalize.process` with `factor=None` multiplies the data
(cast to the output dtype, `float32` by default) by `1/255` for `uint8`
input, by `1.0` for `float32` input whose values already lie in `[0,1]`
(an `AssertionError` otherwise), and raises `RuntimeError` for any other
dtype; in particular `uint8` input (values in `[0,255]`) always yields
values in `[0,1]`. -/
theorem c9_normalize_auto_factor (a : NArray) (outDtype : NpDtype) :
    (a.dtype = .uint8 →
      normalizeProcess none outDtype a =
        .ok { dtype := outDtype,
              data := a.data.map (fun v => v * (1 / 255)) } ∧
      ((∀ v ∈ a.data, 0 ≤ v ∧ v ≤ 255) →
        ∀ w ∈ a.data.map (fun v => v * (1 / 255)), 0 ≤ w ∧ w ≤ 1)) ∧
    (a.dtype = .float32 → (∀ v ∈ a.data, 0 ≤ v ∧ v ≤ 1) →
      normalizeProcess none outDtype a =
        .ok { dtype := outDtype, data := a.data.map (fun v => v * 1) }) ∧
    (a.dtype = .float32 → ¬ (∀ v ∈ a.data, 0 ≤ v ∧ v ≤ 1) →
      normalizeProcess none outDtype a = .error .assertionFailed) ∧
    (a.dtype = .other → normalizeProcess none outDtype a = .error .runtimeError) := by
  obtain ⟨dt, data⟩ := a
  have hbound : (∀ v ∈ data, 0 ≤ v ∧ v ≤ 255) →
      ∀ w ∈ data.map (fun v => v * (1 / 255)), 0 ≤ w ∧ w ≤ 1 := by
    intro hb w hw
    simp only [List.mem_map] at hw
    obtain ⟨v, hv, hweq⟩ := hw
    subst hweq
    have h255 : (0 : ℚ) ≤ 1 / 255 := by norm_num
    constructor
    · exact mul_nonneg ((hb v hv).1) h255
    · calc v * (1 / 255) ≤ 255 * (1 / 255) :=
          mul_le_mul_of_nonneg_right ((hb v hv).2) h255
        _ = 1 := by norm_num
  cases dt with
  | uint8 =>
    refine ⟨fun _ => ⟨rfl, hbound⟩, ?_, ?_, ?_⟩ <;>
      exact fun h => absurd h (by simp)
  | float32 =>
    refine ⟨fun h => absurd h (by simp), ?_, ?_,
      fun h => absurd h (by simp)⟩
    · intro _ hin
      have hall : data.all (fun v => decide (0 ≤ v) && decide (v ≤ 1)) = true := by
        rw [List.all_eq_true]
        intro v hv
        have := hin v hv
        simp only [Bool.and_eq_true, decide_eq_true_iff]
        exact this
      show normalizeFloat32 outDtype data = _
      unfold normalizeFloat32
      rw [if_pos hall]
    · intro _ hnotin
      have hall : ¬ data.all (fun v => decide (0 ≤ v) && decide (v ≤ 1)) = true := by
        intro hall
        apply hnotin
        intro v hv
        have := List.all_eq_true.mp hall v hv
        simp only [Bool.and_eq_true, decide_eq_true_iff] at this
        exact this
      show normalizeFloat32 outDtype data = _
      unfold normalizeFloat32
      rw [if_neg hall]
  | other =>
    refine ⟨?_, ?_, ?_, fun _ => rfl⟩ <;>
      exact fun h => absurd h (by simp)

/-- A successful `setup` stored the upstream bounding box and advertises the
region-cleared copy of the upstream spec. -/
theorem setup_ok_inv (cfg : RLCfg) (up : ProviderSpec) (md : Coordinate → Int)
    (res : SetupResult) (h : setup cfg up md = .ok res) :
    res.spec = clearRois up ∧ getTotalRoi up = some res.upstreamRoi := by
  unfold setup at h
  revert h
  cases ht : getTotalRoi up with
  | none => intro h; simp only [setupGo] at h; cases h
  | some t =>
    simp only [setupGo]
    by_cases hc : cfg.mask.isSome = true ∧ 0 < cfg.minMasked
    · rw [if_pos hc]
      cases hm : cfg.mask with
      | none => rw [hm] at hc; intro h; exact absurd hc.1 (by simp)
      | some mk =>
        simp only [setupMask]
        cases hl : up.arrays.lookup mk with
        | none => intro h; simp only [setupMaskLookup] at h; cases h
        | some info =>
          intro h
          simp only [setupMaskLookup, Except.ok.injEq] at h
          subst h
          exact ⟨rfl, rfl⟩
    · rw [if_neg hc]
      intro h
      simp only [Except.ok.injEq] at h
      subst h
      exact ⟨rfl, rfl⟩

/-- **C10.**  After `RandomLocation.setup` completes, every key of the
advertised spec has its region cleared to `None` — the node presents itself
downstream as an unbounded provider — while the same keys (and voxel sizes)
are kept, and the upstream total region is retained internally as
`self.upstream_roi` for sampling. -/
theorem c10_setup_clears_advertised_rois_and_keeps_upstream_roi (cfg : RLCfg)
    (up : ProviderSpec) (md : Coordinate → Int) (res : SetupResult)
    (h : setup cfg up md = .ok res) :
    (∀ e ∈ res.spec.arrays, e.2.roi = none) ∧
    (∀ e ∈ res.spec.points, e.2 = none) ∧
    res.spec.arrays.map (fun e => (e.1, e.2.voxelSize)) =
      up.arrays.map (fun e => (e.1, e.2.voxelSize)) ∧
    res.spec.points.map Prod.fst = up.points.map Prod.fst ∧
    getTotalRoi up = some res.upstreamRoi := by
  obtain ⟨hspec, hroi⟩ := setup_ok_inv cfg up md res h
  rw [hspec]
  refine ⟨?_, ?_, ?_, ?_, hroi⟩
  · intro e he
    simp only [clearRois, List.mem_map] at he
    obtain ⟨orig, _, heq⟩ := he
    subst heq
    rfl
  · intro e he
    simp only [clearRois, List.mem_map] at he
    obtain ⟨orig, _, heq⟩ := he
    subst heq
    rfl
  · simp only [clearRois, List.map_map]
    rfl
  · simp only [clearRois, List.map_map]
    rfl

/-- C10 at a concrete input: `setup` over the bounded one-key provider clears
the advertised region and keeps the `[0, 20)^3` bound. -/
theorem c10_witness :
    (∀ e ∈ ({ arrays := [(1, { roi := none, voxelSize := ⟨1, 1, 1⟩ })],
              points := [] } : ProviderSpec).arrays, e.2.roi = none) ∧
    (∀ e ∈ ({ arrays := [(1, { roi := none, voxelSize := ⟨1, 1, 1⟩ })],
              points := [] } : ProviderSpec).points, e.2 = none) ∧
    ({ arrays := [(1, { roi := none, voxelSize := ⟨1, 1, 1⟩ })],
       points := [] } : ProviderSpec).arrays.map
        (fun e => (e.1, e.2.voxelSize)) =
      c8Up.arrays.map (fun e => (e.1, e.2.voxelSize)) ∧
    ({ arrays := [(1, { roi := none, voxelSize := ⟨1, 1, 1⟩ })],
       points := [] } : ProviderSpec).points.map Prod.fst =
      c8Up.points.map Prod.fst ∧
    getTotalRoi c8Up = some ⟨⟨0, 0, 0⟩, ⟨20, 20, 20⟩⟩ :=
  c10_setup_clears_advertised_rois_and_keeps_upstream_roi c2Cfg c8Up
    (fun _ => 0)
    { upstreamRoi := ⟨⟨0, 0, 0⟩, ⟨20, 20, 20⟩⟩,
      spec := { arrays := [(1, { roi := none, voxelSize := ⟨1, 1, 1⟩ })],
                points := [] },
      maskEnv := none } rfl
